import Mathlib

/-!
Verification development for the Intel img hwcomposer DRM core
(`src/common/base/Drm.cpp`).

The C++ class `Drm` is shallowly embedded: its mutable member state becomes
the structure `DrmState`, each member function becomes a pure Lean function
from state (and an environment recording the results of the external calls
it performs: kernel DRM ioctls and the buffer allocator) to a result, a new
state, and a trace of externally visible resource events.

Source names are kept where Lean allows it; `Drm::initialize` and
`Drm::deinitialize` are rendered as `initDrm` and `deinitDrm`.
-/

namespace DrmModel

/-- Model of `drmModeModeInfo`: the fields the module reads (resolution, refresh,
flags, type bitmask).  Machine integers are modelled as `Nat`; the code only
compares them and masks them bitwise, so no overflow is involved. -/
structure ModeInfo where
  hdisplay : Nat
  vdisplay : Nat
  vrefresh : Nat
  flags : Nat
  type : Nat
deriving DecidableEq

/-- The all-zero `drmModeModeInfo` (result of `memset(...,0,...)`). -/
def zeroMode : ModeInfo := ⟨0, 0, 0, 0, 0⟩

/-- Model of `DRM_MODE_TYPE_PREFERRED` (1 << 3) from the kernel ABI. -/
def DRM_MODE_TYPE_PREFERRED : Nat := 8

/-- Model of `DRM_MODE_CONNECTED` (enum `drmModeConnection`, value 1). -/
def DRM_MODE_CONNECTED : Nat := 1

/-- Model of `mode->type & DRM_MODE_TYPE_PREFERRED` as a Bool. -/
def isPreferred (m : ModeInfo) : Bool :=
  (m.type &&& DRM_MODE_TYPE_PREFERRED) != 0

/-- Model of `Drm::isSameDrmMode(value, base)` (Drm.cpp:235-247): equal resolution and
refresh, and `(base->flags & value->flags) == value->flags` (the requested
flags are a subset of the base flags). -/
def isSameDrmMode (value base : ModeInfo) : Bool :=
  base.hdisplay == value.hdisplay &&
  base.vdisplay == value.vdisplay &&
  base.vrefresh == value.vrefresh &&
  ((base.flags &&& value.flags) == value.flags)

/-- Model of `drmModeConnector`: the fields the module reads. -/
structure Connector where
  connector_id : Nat
  connector_type : Nat
  connection : Nat
  encoder_id : Nat
  modes : List ModeInfo
  mmWidth : Nat
  mmHeight : Nat
deriving DecidableEq

/-- Model of `drmModeEncoder`: the fields the module reads. -/
structure Encoder where
  encoder_type : Nat
  crtc_id : Nat
deriving DecidableEq

/-- Model of `drmModeCrtc`: the fields the module reads. -/
structure Crtc where
  crtc_id : Nat
  buffer_id : Nat
  mode_valid : Bool
  mode : ModeInfo
deriving DecidableEq

/-- Model of `struct DrmOutput` — one Output State slot.  Kernel descriptor pointers
become `Option`s (`none` = NULL). -/
structure DrmOutput where
  connected : Bool
  connector : Option Connector
  encoder : Option Encoder
  crtc : Option Crtc
  mode : ModeInfo
  fbId : Nat
  fbHandle : Nat
deriving DecidableEq

/-- A zeroed slot (`memset(&mOutputs,0,...)` / the effect of `resetOutput`). -/
def zeroOutput : DrmOutput := ⟨false, none, none, none, zeroMode, 0, 0⟩

/-- The `Drm` object's member state: `mDrmFd`, `mInitialized`, and the
two-entry array `mOutputs[OUTPUT_MAX]` (`OUTPUT_PRIMARY = 0`,
`OUTPUT_EXTERNAL = 1`). -/
structure DrmState where
  drmFd : Int
  initialized : Bool
  primary : DrmOutput
  external : DrmOutput
deriving DecidableEq

/-- State established by the constructor `Drm::Drm()` (Drm.cpp:39-45). -/
def freshDrm : DrmState := ⟨0, false, zeroOutput, zeroOutput⟩

def OUTPUT_PRIMARY : Nat := 0
def OUTPUT_EXTERNAL : Nat := 1

/-- Model of `IDisplayDevice::DEVICE_PRIMARY`.  The numeric device ids live in
`IDisplayDevice.h`, outside this file's source; only their distinctness is
relied upon (modelled from the spec's fixed device-to-slot table). -/
def DEVICE_PRIMARY : Int := 0

/-- Model of `IDisplayDevice::DEVICE_EXTERNAL` (see `DEVICE_PRIMARY`). -/
def DEVICE_EXTERNAL : Int := 1

/-- Model of `mOutputs[i]` (array read). -/
def DrmState.out (s : DrmState) (i : Nat) : DrmOutput :=
  if i = 0 then s.primary else s.external

/-- Writing slot `i` of `mOutputs`. -/
def DrmState.setOut (s : DrmState) (i : Nat) (o : DrmOutput) : DrmState :=
  if i = 0 then { s with primary := o } else { s with external := o }

/-- Model of `Drm::getOutputIndex(device)` (Drm.cpp:617-630): -1 for unknown ids. -/
def getOutputIndex (device : Int) : Int :=
  if device = DEVICE_PRIMARY then (OUTPUT_PRIMARY : Nat)
  else if device = DEVICE_EXTERNAL then (OUTPUT_EXTERNAL : Nat)
  else -1

/-- Externally visible resource events (kernel framebuffer add/remove, CRTC
set, buffer-allocator calls, device-node close). -/
inductive Ev where
  | allocFB (w h : Nat)
  | freeFB (handle : Nat)
  | addFB (handle : Nat)
  | rmFB (fbId : Nat)
  | setCrtc (crtcId fbId : Nat)
  | closeFd (fd : Int)
deriving DecidableEq

/-- The release calls `Drm::resetOutput(index)` (Drm.cpp:497-524) performs on
a slot: free connector/encoder/crtc descriptors, `drmModeRmFB` the
framebuffer id, `freeFrameBuffer` the pixel-buffer handle (each only when
held).  Descriptor frees are not modelled as events (no claim concerns
them); the framebuffer pair's are. -/
def resetOutputEvs (o : DrmOutput) : List Ev :=
  (if o.fbId ≠ 0 then [Ev.rmFB o.fbId] else []) ++
  (if o.fbHandle ≠ 0 then [Ev.freeFB o.fbHandle] else [])

/-- State effect of `Drm::resetOutput(index)`: every field of the slot is
cleared/zeroed (Drm.cpp:497-524). -/
def resetOutput (s : DrmState) (index : Nat) : DrmState :=
  s.setOut index zeroOutput

/-- Results of the external calls one mode commit performs:
`allocFrameBuffer` (0 = allocation failure), `drmModeAddFB` (`some fbId` on
success, `none` on nonzero return), `drmModeSetCrtc` (true = returned 0). -/
structure CommitEnv where
  allocResult : Nat
  addFBResult : Option Nat
  setCrtcOk : Bool

/-- Model of `Drm::setDrmMode(int index, drmModeModeInfoPtr mode)` (Drm.cpp:547-615),
acting on the one slot the source mutates through `output`.
Control flow mirrored from the source: no-op if `isSameDrmMode(mode,
&currentMode)`; stash and zero the old fb pair; allocate (failure returns
with the slot's pair zeroed); `drmModeAddFB` (failure returns with the new
handle still recorded in `fbHandle` and `fbId` still 0); `drmModeSetCrtc`
(mode saved only on success); then — only on this path — remove/free the
old pair, regardless of the SetCrtc result. -/
def setDrmModeOut (env : CommitEnv) (o : DrmOutput) (mode : ModeInfo) :
    Bool × DrmOutput × List Ev :=
  if isSameDrmMode mode o.mode then (true, o, [])
  else
    let oldFbId := o.fbId
    let oldFbHandle := o.fbHandle
    let fbHandle := env.allocResult
    let o1 := { o with fbId := 0, fbHandle := fbHandle }
    if fbHandle = 0 then (false, o1, [Ev.allocFB mode.hdisplay mode.vdisplay])
    else
      match env.addFBResult with
      | none => (false, o1, [Ev.allocFB mode.hdisplay mode.vdisplay, Ev.addFB fbHandle])
      | some fid =>
        let o2 := { o1 with fbId := fid }
        let crtcId := match o2.crtc with
          | some c => c.crtc_id
          | none => 0
        let o3 := if env.setCrtcOk then { o2 with mode := mode } else o2
        (env.setCrtcOk, o3,
          [Ev.allocFB mode.hdisplay mode.vdisplay, Ev.addFB fbHandle,
           Ev.setCrtc crtcId fid] ++
          (if oldFbId ≠ 0 then [Ev.rmFB oldFbId] else []) ++
          (if oldFbHandle ≠ 0 then [Ev.freeFB oldFbHandle] else []))

/-- The same internal commit lifted to the whole `Drm` state. -/
def setDrmModeIndex (env : CommitEnv) (s : DrmState) (index : Nat) (mode : ModeInfo) :
    Bool × DrmState × List Ev :=
  let r := setDrmModeOut env (s.out index) mode
  (r.1, s.setOut index r.2.1, r.2.2)

/-- The mode-scan loop shared by `Drm::setDrmMode(int, drmModeModeInfo&)`
(Drm.cpp:278-287) and `Drm::setRefreshRate` (Drm.cpp:322-333): `index = i`
on every mode flagged preferred, `index = i` followed by `break` on the
first mode satisfying the search predicate `f`. -/
def selectGo (f : ModeInfo → Bool) : Nat → Nat → List ModeInfo → Nat
  | _, idx, [] => idx
  | i, idx, m :: rest =>
    let idx1 := if isPreferred m then i else idx
    if f m then i else selectGo f (i + 1) idx1 rest

/-- Entry to `selectGo` with `index = 0` before the loop. -/
def selectModeIndex (f : ModeInfo → Bool) (modes : List ModeInfo) : Nat :=
  selectGo f 0 0 modes

/-- The mode-scan loop of `Drm::initDrmMode` (Drm.cpp:536-542): `index = i;
break;` on the first mode flagged preferred, else `index` stays 0. -/
def initModeIndexGo : Nat → List ModeInfo → Nat
  | _, [] => 0
  | i, m :: rest => if isPreferred m then i else initModeIndexGo (i + 1) rest

/-- Entry to `initModeIndexGo` with `index = 0` before the loop. -/
def initModeIndex (modes : List ModeInfo) : Nat := initModeIndexGo 0 modes

/-- Model of `Drm::initDrmMode(outputIndex)` (Drm.cpp:526-545), acting on the slot.
Its call sites guarantee `output->connector` is set (the source dereferences
it unconditionally); the `none` arm renders that unreachable case total. -/
def initDrmModeOut (env : CommitEnv) (o : DrmOutput) : Bool × DrmOutput × List Ev :=
  match o.connector with
  | none => (false, o, [])
  | some conn =>
    if conn.modes.length = 0 then (false, o, [])
    else setDrmModeOut env o (conn.modes.getD (initModeIndex conn.modes) zeroMode)

/-- Model of `Drm::setDrmMode(int device, drmModeModeInfo& value)` (Drm.cpp:249-291):
not-initialized and `device != DEVICE_EXTERNAL` guards, slot lookup,
connected and `count_modes` checks, the preferred/exact scan with
`isSameDrmMode(&value, mode)`, then the internal commit.  `connected`
implies a recorded connector on every reachable state; the `none` arm
renders the source's unconditional dereference total. -/
def setDrmModeDevice (env : CommitEnv) (s : DrmState) (device : Int) (value : ModeInfo) :
    Bool × DrmState × List Ev :=
  if s.initialized = false then (false, s, [])
  else if device ≠ DEVICE_EXTERNAL then (false, s, [])
  else if getOutputIndex device < 0 then (false, s, [])
  else
    let index := (getOutputIndex device).toNat
    let o := s.out index
    if o.connected = false then (false, s, [])
    else
      match o.connector with
      | none => (false, s, [])
      | some conn =>
        if conn.modes.length = 0 then (false, s, [])
        else
          let mi := selectModeIndex (fun m => isSameDrmMode value m) conn.modes
          setDrmModeIndex env s index (conn.modes.getD mi zeroMode)

/-- Model of `Drm::setRefreshRate(int device, int hz)` (Drm.cpp:293-337): same guards
as `setDrmModeDevice`; the scan predicate matches the current mode's
resolution and `vrefresh == (uint32_t)hz` (no flags). -/
def setRefreshRate (env : CommitEnv) (s : DrmState) (device : Int) (hz : Nat) :
    Bool × DrmState × List Ev :=
  if s.initialized = false then (false, s, [])
  else if device ≠ DEVICE_EXTERNAL then (false, s, [])
  else if getOutputIndex device < 0 then (false, s, [])
  else
    let index := (getOutputIndex device).toNat
    let o := s.out index
    if o.connected = false then (false, s, [])
    else
      match o.connector with
      | none => (false, s, [])
      | some conn =>
        if conn.modes.length = 0 then (false, s, [])
        else
          let mi := selectModeIndex
            (fun m => m.hdisplay == o.mode.hdisplay && m.vdisplay == o.mode.vdisplay &&
              m.vrefresh == hz) conn.modes
          setDrmModeIndex env s index (conn.modes.getD mi zeroMode)

/-- Model of `drmModeRes`: the id arrays the discovery walk reads.  A `none` array
models a NULL `connectors`/`encoders`/`crtcs` pointer (the loops then skip
every iteration); a 0 entry models a null id entry. -/
structure Resources where
  connectors : Option (List Nat)
  encoders : Option (List Nat)
  crtcs : Option (List Nat)

/-- The kernel's side of the discovery ioctls: `drmModeGetResources`
(`none` = failure) and the per-id descriptor getters (`none` = failure). -/
structure KernelEnv where
  resources : Option Resources
  getConnector : Nat → Option Connector
  getEncoder : Nat → Option Encoder
  getCrtc : Nat → Option Crtc

/-- Model of `DrmConfig` (external configuration): expected connector and encoder
type per device. -/
structure DrmConfig where
  drmConnectorType : Int → Nat
  drmEncoderType : Int → Nat

/-- The encoder fallback scan of `Drm::detect` (Drm.cpp:148-165).  The loop
counter is `j`, and the null-entry check reads `resources->encoders[j]`,
but the id actually fetched is `resources->encoders[i]` — `i` being the
enclosing CONNECTOR loop's index (Drm.cpp:154).  `fetchId` is that constant
id; an out-of-range `i` (an out-of-bounds read in the source) is modelled
as id 0. -/
def encoderScanGo (k : KernelEnv) (expectedType fetchId : Nat) : List Nat → Option Encoder
  | [] => none
  | idj :: rest =>
    if idj = 0 then encoderScanGo k expectedType fetchId rest
    else
      match k.getEncoder fetchId with
      | none => encoderScanGo k expectedType fetchId rest
      | some e =>
        if e.encoder_type = expectedType then some e
        else encoderScanGo k expectedType fetchId rest

/-- Runs `encoderScanGo` over the (possibly NULL) encoder id array, with the
source's `resources->encoders[i]` fetch id. -/
def encoderScan (k : KernelEnv) (expectedType : Nat) (encoders : Option (List Nat))
    (i : Nat) : Option Encoder :=
  match encoders with
  | none => none
  | some ids => encoderScanGo k expectedType (ids.getD i 0) ids

/-- Encoder resolution (Drm.cpp:136-166): prefer the connector's attached
`encoder_id` when nonzero and resolvable, else the fallback scan. -/
def resolveEncoder (k : KernelEnv) (expectedType : Nat) (encoders : Option (List Nat))
    (i : Nat) (conn : Connector) : Option Encoder :=
  let attached := if conn.encoder_id ≠ 0 then k.getEncoder conn.encoder_id else none
  match attached with
  | some e => some e
  | none => encoderScan k expectedType encoders i

/-- The spare-CRTC scan of `Drm::detect` (Drm.cpp:183-200): first CRTC in
the list that resolves and has `buffer_id == 0` (this scan indexes by its
own loop variable `j`). -/
def crtcScanGo (k : KernelEnv) : List Nat → Option Crtc
  | [] => none
  | idj :: rest =>
    if idj = 0 then crtcScanGo k rest
    else
      match k.getCrtc idj with
      | none => crtcScanGo k rest
      | some c => if c.buffer_id = 0 then some c else crtcScanGo k rest

/-- CRTC resolution (Drm.cpp:172-201): prefer the encoder's attached
`crtc_id` when nonzero and resolvable, else the spare scan. -/
def resolveCrtc (k : KernelEnv) (crtcs : Option (List Nat)) (e : Encoder) : Option Crtc :=
  let attached := if e.crtc_id ≠ 0 then k.getCrtc e.crtc_id else none
  match attached with
  | some c => some c
  | none =>
    match crtcs with
    | none => none
    | some ids => crtcScanGo k ids

/-- The body of `Drm::detect`'s connector loop once a connector of the
expected type in `DRM_MODE_CONNECTED` state is found (Drm.cpp:133-216),
acting on the slot: record the connector, mark connected, resolve encoder
and CRTC (breaking with `ret == false` when either fails, the partial slot
left for the caller's `resetOutput`), then adopt the CRTC's valid mode or
fall through to `initDrmMode`.  `i` is the connector loop index (feeding
the encoder scan's buggy fetch). -/
def connectedBranchOut (k : KernelEnv) (cfg : DrmConfig) (env : CommitEnv) (device : Int)
    (res : Resources) (o : DrmOutput) (i : Nat) (conn : Connector) : Bool × DrmOutput :=
  let o1 := { o with connector := some conn, connected := true }
  match resolveEncoder k (cfg.drmEncoderType device) res.encoders i conn with
  | none => (false, o1)
  | some e =>
    let o2 := { o1 with encoder := some e }
    match resolveCrtc k res.crtcs e with
    | none => (false, o2)
    | some c =>
      let o3 := { o2 with crtc := some c }
      if c.mode_valid then (true, { o3 with mode := c.mode })
      else
        let r := initDrmModeOut env o3
        (r.1, r.2.1)

/-- Model of `Drm::detect`'s connector loop (Drm.cpp:109-217) acting on the slot:
skip null entries, unresolvable connectors, and type mismatches; break with
success (slot untouched) on a matching connector that is not connected;
otherwise enter `connectedBranchOut`.  The list pairs each connector id with
its loop index `i`. -/
def detectConnLoopOut (k : KernelEnv) (cfg : DrmConfig) (env : CommitEnv) (device : Int)
    (res : Resources) (o : DrmOutput) : List (Nat × Nat) → Bool × DrmOutput
  | [] => (false, o)
  | (i, cid) :: rest =>
    if cid = 0 then detectConnLoopOut k cfg env device res o rest
    else
      match k.getConnector cid with
      | none => detectConnLoopOut k cfg env device res o rest
      | some conn =>
        if conn.connector_type ≠ cfg.drmConnectorType device then
          detectConnLoopOut k cfg env device res o rest
        else if conn.connection ≠ DRM_MODE_CONNECTED then (true, o)
        else connectedBranchOut k cfg env device res o i conn

/-- The indexed connector id list `detect` iterates (a NULL array iterates
with every entry skipped, i.e. like an empty list). -/
def connPairs (res : Resources) : List (Nat × Nat) :=
  (List.range (res.connectors.getD []).length).zip (res.connectors.getD [])

/-- Model of `Drm::detect(device)` (Drm.cpp:85-233): not-initialized and bad-device
guards, `resetOutput` on the slot, `drmModeGetResources` (failure returns
false), the connector loop, then the post-loop policy: when the loop did
not succeed, success is still returned if no connector was recorded and the
slot is not PRIMARY ("disabled output"), and the slot is reset on every
non-success loop outcome. -/
def detect (k : KernelEnv) (cfg : DrmConfig) (env : CommitEnv) (s : DrmState)
    (device : Int) : Bool × DrmState :=
  if s.initialized = false then (false, s)
  else if getOutputIndex device < 0 then (false, s)
  else
    let index := (getOutputIndex device).toNat
    let s0 := resetOutput s index
    match k.resources with
    | none => (false, s0)
    | some res =>
      let r := detectConnLoopOut k cfg env device res zeroOutput (connPairs res)
      if r.1 then (true, s0.setOut index r.2)
      else if r.2.connector = none ∧ index ≠ OUTPUT_PRIMARY then
        (true, resetOutput (s0.setOut index r.2) index)
      else (false, resetOutput (s0.setOut index r.2) index)

/-- Model of `Drm::getModeInfo(device, mode)` (Drm.cpp:392-414): no initialization
check; fails on unknown device, disconnected slot, or zero width/height. -/
def getModeInfo (s : DrmState) (device : Int) : Option ModeInfo :=
  if getOutputIndex device < 0 then none
  else
    let o := s.out (getOutputIndex device).toNat
    if o.connected = false then none
    else if o.mode.hdisplay = 0 ∨ o.mode.vdisplay = 0 then none
    else some o.mode

/-- Model of `Drm::getPhysicalSize(device, w, h)` (Drm.cpp:416-434): no
initialization check; the connector is only dereferenced after the
connected check (the `none` arm renders the source's dereference total —
unreachable, since `connected` implies a connector on reachable states). -/
def getPhysicalSize (s : DrmState) (device : Int) : Option (Nat × Nat) :=
  if getOutputIndex device < 0 then none
  else
    let o := s.out (getOutputIndex device).toNat
    if o.connected = false then none
    else
      match o.connector with
      | none => none
      | some c => some (c.mmWidth, c.mmHeight)

/-- Model of `Drm::isConnected(device)` (Drm.cpp:436-446): no initialization check. -/
def isConnected (s : DrmState) (device : Int) : Bool :=
  if getOutputIndex device < 0 then false
  else (s.out (getOutputIndex device).toNat).connected

/-- Model of `Drm::initialize()` (Drm.cpp:52-70), with the result of `open` as the
environment: no-op success when already initialized; `mDrmFd` receives the
`open` result even when negative (the failure return leaves it there); on
success the output table is zeroed and `mInitialized` set. -/
def initDrm (openResult : Int) (s : DrmState) : Bool × DrmState :=
  if s.initialized then (true, s)
  else
    let s1 := { s with drmFd := openResult }
    if openResult < 0 then (false, s1)
    else (true, { s1 with primary := zeroOutput, external := zeroOutput, initialized := true })

/-- Model of `Drm::deinitialize()` (Drm.cpp:72-83): reset every slot, close the
device node when `mDrmFd` is nonzero, clear `mInitialized`. -/
def deinitDrm (s : DrmState) : DrmState × List Ev :=
  let evs := resetOutputEvs s.primary ++ resetOutputEvs s.external
  if s.drmFd ≠ 0 then
    ({ drmFd := 0, initialized := false, primary := zeroOutput, external := zeroOutput },
      evs ++ [Ev.closeFd s.drmFd])
  else
    ({ drmFd := 0, initialized := false, primary := zeroOutput, external := zeroOutput }, evs)

/-- Follows the spec's words: "remember the index of the last-seen mode
flagged preferred" — the index of the last occurrence of a preferred mode
in the list, if any. -/
def specLastPreferredIdx : List ModeInfo → Option Nat
  | [] => none
  | m :: rest =>
    match specLastPreferredIdx rest with
    | some p => some (p + 1)
    | none => if isPreferred m then some 0 else none

/-- Follows the spec's words (tie-break rule, §4.2): "iterate the
connector's supported mode list in order; ... if an exact-match mode is
found, it wins immediately and search stops; otherwise the remembered
\[last-seen\] preferred index is used, or index 0 if none was flagged
preferred." -/
def specModeChoice (modes : List ModeInfo) (exact : ModeInfo → Bool) : Nat :=
  match modes.findIdx? exact with
  | some i => i
  | none => (specLastPreferredIdx modes).getD 0

/-- Follows the spec's words (§4.2 step 5 / claim C4): "scan all encoders
for one whose type matches the device's expected encoder type" — each list
entry fetched by its own position. -/
def specEncoderScan (k : KernelEnv) (expectedType : Nat) : List Nat → Option Encoder
  | [] => none
  | eid :: rest =>
    match k.getEncoder eid with
    | none => specEncoderScan k expectedType rest
    | some e =>
      if e.encoder_type = expectedType then some e
      else specEncoderScan k expectedType rest

/-- The spec's Output State invariants (§3): `connected == true` implies
`connector != null`, and `framebufferId != 0` iff `framebufferHandle != 0`. -/
def outputInv (o : DrmOutput) : Prop :=
  (o.connected = true → o.connector ≠ none) ∧ (o.fbId ≠ 0 ↔ o.fbHandle ≠ 0)

instance (o : DrmOutput) : Decidable (outputInv o) := by
  unfold outputInv; infer_instance

/-- The invariants for both slots. -/
def stateInv (s : DrmState) : Prop :=
  outputInv s.primary ∧ outputInv s.external

instance (s : DrmState) : Decidable (stateInv s) := by
  unfold stateInv; infer_instance

/-- The skip logic of `detect`'s connector loop in isolation: the first list
entry that is nonzero, resolves, and has the expected connector type,
together with its loop index.  (An analysis device: `detectConnLoopOut` is
proved equal to a case split on this value.) -/
def findMatch (k : KernelEnv) (expected : Nat) : List (Nat × Nat) → Option (Nat × Connector)
  | [] => none
  | (i, cid) :: rest =>
    if cid = 0 then findMatch k expected rest
    else
      match k.getConnector cid with
      | none => findMatch k expected rest
      | some conn =>
        if conn.connector_type ≠ expected then findMatch k expected rest
        else some (i, conn)

/-! Concrete fixtures used by counterexamples and witnesses. -/

/-- 1920x1080@60, no flags, not preferred. -/
def modeA : ModeInfo := ⟨1920, 1080, 60, 0, 0⟩

/-- 1280x720@30, no flags, not preferred. -/
def modeB : ModeInfo := ⟨1280, 720, 30, 0, 0⟩

/-- 1920x1080@60, flagged preferred. -/
def prefA : ModeInfo := ⟨1920, 1080, 60, 0, 8⟩

/-- 1280x720@30, flagged preferred. -/
def prefB : ModeInfo := ⟨1280, 720, 30, 0, 8⟩

/-- A connected connector of type 5 with attached encoder id 2 and one
supported mode. -/
def connFix : Connector := ⟨1, 5, 1, 2, [modeB], 300, 200⟩

/-- The same connector, but reported `DRM_MODE_DISCONNECTED` (value 2). -/
def connDiscFix : Connector := ⟨1, 5, 2, 2, [modeB], 300, 200⟩

/-- A connected connector of type 5 with no attached encoder. -/
def connNoEncFix : Connector := ⟨1, 5, 1, 0, [modeB], 300, 200⟩

/-- Config: every device expects connector type 5, encoder type 7. -/
def cfgFix : DrmConfig := ⟨fun _ => 5, fun _ => 7⟩

/-- Kernel exposing `connFix` (id 1), an encoder (id 2) whose CRTC (id 3)
already has a valid mode `modeA`. -/
def kFix : KernelEnv :=
  { resources := some ⟨some [1], some [], some []⟩
    getConnector := fun cid => if cid = 1 then some connFix else none
    getEncoder := fun eid => if eid = 2 then some ⟨7, 3⟩ else none
    getCrtc := fun cid => if cid = 3 then some ⟨3, 9, true, modeA⟩ else none }

/-- Kernel whose only matching connector is disconnected. -/
def kDiscFix : KernelEnv :=
  { kFix with getConnector := fun cid => if cid = 1 then some connDiscFix else none }

/-- Kernel with no resolvable connector at all. -/
def kAbsentFix : KernelEnv := { kFix with getConnector := fun _ => none }

/-- Kernel whose matching connector is connected but for which no encoder
resolves (no attached id, empty encoder list). -/
def kNoEncFix : KernelEnv :=
  { kFix with getConnector := fun cid => if cid = 1 then some connNoEncFix else none
              getEncoder := fun _ => none }

/-- Kernel fixture for the encoder-scan defect: encoder list `[10, 20]`,
id 10 has type 1, id 20 has type 2 (the sought type). -/
def kEncFix : KernelEnv :=
  ⟨none, fun _ => none,
    fun eid => if eid = 10 then some ⟨1, 0⟩ else if eid = 20 then some ⟨2, 0⟩ else none,
    fun _ => none⟩

/-- Commit environment: allocation yields handle 7, registration yields
framebuffer id 11, CRTC bind succeeds. -/
def envOkFix : CommitEnv := ⟨7, some 11, true⟩

/-- Commit environment: allocation yields handle 7, registration id 11, but
the CRTC bind fails. -/
def envBindFailFix : CommitEnv := ⟨7, some 11, false⟩

/-- Commit environment: allocation fails. -/
def envAllocFailFix : CommitEnv := ⟨0, none, true⟩

/-- Commit environment: allocation yields handle 7, registration fails. -/
def envRegFailFix : CommitEnv := ⟨7, none, true⟩

/-- A slot holding framebuffer id 5 / handle 7 at mode `modeA`. -/
def slotFix : DrmOutput := ⟨true, some connFix, none, none, modeA, 5, 7⟩

/-- A connected slot with no framebuffer yet, at mode `modeA`. -/
def slotNoFbFix : DrmOutput := ⟨true, some connFix, none, none, modeA, 0, 0⟩

/-- State after a successful `initDrm` on a fresh object (fd 3). -/
def sInit : DrmState := (initDrm 3 freshDrm).2

/-- State after `initDrm` then a successful `detect` of the EXTERNAL device
against `kFix` (slot connected at `modeA`, no framebuffer pair yet). -/
def sConn : DrmState := (detect kFix cfgFix envOkFix sInit 1).2

/-! Helper lemmas about the state/slot plumbing. -/

theorem out_setOut_self (s : DrmState) (i : Nat) (o : DrmOutput) :
    (s.setOut i o).out i = o := by
  unfold DrmState.setOut DrmState.out
  by_cases h : i = 0 <;> simp [h]

theorem setOut_setOut (s : DrmState) (i : Nat) (o o2 : DrmOutput) :
    (s.setOut i o).setOut i o2 = s.setOut i o2 := by
  unfold DrmState.setOut
  by_cases h : i = 0 <;> simp [h]

theorem stateInv_out {s : DrmState} (i : Nat) (h : stateInv s) : outputInv (s.out i) := by
  unfold DrmState.out
  by_cases hi : i = 0 <;> simp [hi]
  · exact h.1
  · exact h.2

theorem stateInv_setOut {s : DrmState} {o : DrmOutput} (i : Nat)
    (hs : stateInv s) (ho : outputInv o) : stateInv (s.setOut i o) := by
  unfold stateInv DrmState.setOut at *
  by_cases hi : i = 0 <;> simp [hi]
  · exact ⟨ho, hs.2⟩
  · exact ⟨hs.1, ho⟩

theorem outputInv_zeroOutput : outputInv zeroOutput := by decide

/-- C7: committing a mode whose resolution and refresh equal the currently
active mode's and whose flags are a subset of the current mode's flags is a
no-op success: the internal commit returns true, performs no external call
(empty event trace, hence no allocation), and leaves the whole state —
including the slot's framebuffer id, handle and recorded mode — unchanged. -/
theorem setDrmMode_equiv_noop (env : CommitEnv) (s : DrmState) (index : Nat) (m : ModeInfo)
    (h1 : m.hdisplay = (s.out index).mode.hdisplay)
    (h2 : m.vdisplay = (s.out index).mode.vdisplay)
    (h3 : m.vrefresh = (s.out index).mode.vrefresh)
    (h4 : (s.out index).mode.flags &&& m.flags = m.flags) :
    setDrmModeIndex env s index m = (true, s, []) := by
  have hsame : isSameDrmMode m (s.out index).mode = true := by
    unfold isSameDrmMode
    simp [h1, h2, h3, h4]
  unfold setDrmModeIndex setDrmModeOut
  rw [hsame]
  simp only [if_true]
  refine Prod.ext rfl (Prod.ext ?_ rfl)
  unfold DrmState.setOut DrmState.out
  by_cases hi : index = 0 <;> simp [hi]

/-- Witness for `setDrmMode_equiv_noop` at a concrete connected state. -/
theorem setDrmMode_equiv_noop_witness :
    setDrmModeIndex envOkFix (freshDrm.setOut 1 slotFix) 1 modeA =
      (true, freshDrm.setOut 1 slotFix, []) :=
  setDrmMode_equiv_noop envOkFix (freshDrm.setOut 1 slotFix) 1 modeA
    (by decide) (by decide) (by decide) (by decide)

/-- C9: for every device id other than `DEVICE_EXTERNAL`, the explicit
entry points `setDrmMode(device, mode)` and `setRefreshRate(device, hz)`
return failure without mutating any Output State (the returned state is the
input state, and no external call is made). -/
theorem setDrmMode_non_external_rejected (env env2 : CommitEnv) (s : DrmState)
    (device : Int) (value : ModeInfo) (hz : Nat) (h : device ≠ DEVICE_EXTERNAL) :
    setDrmModeDevice env s device value = (false, s, []) ∧
    setRefreshRate env2 s device hz = (false, s, []) := by
  unfold setDrmModeDevice setRefreshRate
  by_cases hi : s.initialized = false <;> simp [hi, h]

/-- Witness for `setDrmMode_non_external_rejected` at `DEVICE_PRIMARY`. -/
theorem setDrmMode_non_external_rejected_witness :
    setDrmModeDevice envOkFix sConn DEVICE_PRIMARY modeB = (false, sConn, []) ∧
    setRefreshRate envOkFix sConn DEVICE_PRIMARY 30 = (false, sConn, []) :=
  setDrmMode_non_external_rejected envOkFix envOkFix sConn DEVICE_PRIMARY modeB 30
    (by decide)

/-- C10: on a freshly constructed, never-initialized module (all Output
State zero-initialized), the query accessors — which perform no
initialization check — return failure (`none`) for `getModeInfo` and
`getPhysicalSize` and `false` for `isConnected`, for every device id, and
being pure functions of the state they mutate nothing. -/
theorem accessors_fresh_fail (device : Int) :
    getModeInfo freshDrm device = none ∧
    getPhysicalSize freshDrm device = none ∧
    isConnected freshDrm device = false := by
  by_cases h0 : device = DEVICE_PRIMARY
  · subst h0; exact ⟨by decide, by decide, by decide⟩
  · by_cases h1 : device = DEVICE_EXTERNAL
    · subst h1; exact ⟨by decide, by decide, by decide⟩
    · have hneg : getOutputIndex device = -1 := by
        unfold getOutputIndex; simp [h0, h1]
      unfold getModeInfo getPhysicalSize isConnected
      rw [hneg]
      norm_num

/-- C8: after `deinitialize()` the state is exactly the constructor's clean
state (both slots cleared: `connected == false`, zero mode, zero
framebuffer id/handle; device handle cleared to 0); when a handle was open
it is closed (a `closeFd` event is emitted after the per-slot releases); a
second `deinitialize()` from that state is a no-op returning the same clean
state; and a subsequent `initialize()` therefore starts from the clean
state. -/
theorem deinit_clean (s : DrmState) :
    (deinitDrm s).1 = freshDrm ∧
    (s.drmFd ≠ 0 → (deinitDrm s).2 =
      resetOutputEvs s.primary ++ resetOutputEvs s.external ++ [Ev.closeFd s.drmFd]) ∧
    deinitDrm freshDrm = (freshDrm, []) ∧
    (∀ r : Int, initDrm r (deinitDrm s).1 = initDrm r freshDrm) := by
  refine ⟨?_, ?_, by decide, ?_⟩
  · unfold deinitDrm freshDrm
    split <;> rfl
  · intro h
    unfold deinitDrm
    simp [h]
  · intro r
    unfold deinitDrm freshDrm
    split <;> rfl

/-- Witness for `deinit_clean` at a state with an open handle and held
resources. -/
theorem deinit_clean_witness :
    (deinitDrm (sConn.setOut 1 slotFix)).1 = freshDrm ∧
    (deinitDrm (sConn.setOut 1 slotFix)).2 =
      resetOutputEvs (sConn.setOut 1 slotFix).primary ++
      resetOutputEvs (sConn.setOut 1 slotFix).external ++
      [Ev.closeFd (sConn.setOut 1 slotFix).drmFd] ∧
    deinitDrm freshDrm = (freshDrm, []) := by
  have h := deinit_clean (sConn.setOut 1 slotFix)
  exact ⟨h.1, h.2.1 (by decide), h.2.2.1⟩

/-- C4 (evaluation at the failing input): with encoder list `[10, 20]`,
sought encoder type 2 held by id 20, and connector loop index `i = 0`, the
source's fallback scan (which fetches `resources->encoders[i]` on every
iteration of its own loop `j`, Drm.cpp:154) finds nothing, while the scan
the spec describes — each entry fetched by its own position — finds the
type-2 encoder. -/
theorem encoder_scan_defect :
    encoderScan kEncFix 2 (some [10, 20]) 0 = none ∧
    specEncoderScan kEncFix 2 [10, 20] = some ⟨2, 0⟩ := by
  exact ⟨rfl, rfl⟩

/-- Bridge: the explicit-request scan loop equals "first exact match, else
last-seen preferred, else the incoming index", for any starting position. -/
theorem selectGo_eq (f : ModeInfo → Bool) (ms : List ModeInfo) : ∀ i idx,
    selectGo f i idx ms =
      match ms.findIdx? f with
      | some k => i + k
      | none =>
        match specLastPreferredIdx ms with
        | some p => i + p
        | none => idx := by
  induction ms with
  | nil => intro i idx; simp [selectGo, specLastPreferredIdx]
  | cons m rest ih =>
    intro i idx
    by_cases hf : f m
    · simp [selectGo, hf, List.findIdx?_cons]
    · by_cases hp : isPreferred m <;>
        rcases hrest : rest.findIdx? f with _ | k <;>
        rcases hlast : specLastPreferredIdx rest with _ | p <;>
        simp [selectGo, hf, hp, List.findIdx?_cons, specLastPreferredIdx, hrest, hlast, ih,
          Nat.add_assoc, Nat.add_comm, Nat.add_left_comm]

/-- Bridge: the `initDrmMode` scan loop (break on first preferred) equals
"index of the first preferred mode, else 0", for any starting position. -/
theorem initModeIndexGo_eq (ms : List ModeInfo) : ∀ i,
    initModeIndexGo i ms =
      match ms.findIdx? isPreferred with
      | some k => i + k
      | none => 0 := by
  induction ms with
  | nil => intro i; simp [initModeIndexGo]
  | cons m rest ih =>
    intro i
    by_cases hp : isPreferred m <;>
      rcases hrest : rest.findIdx? isPreferred with _ | k <;>
      simp [initModeIndexGo, hp, List.findIdx?_cons, hrest, ih,
        Nat.add_assoc, Nat.add_comm, Nat.add_left_comm]

/-- C3 counterexample: on a mode list with two preferred modes and no exact
match, the initial mode-set scan (`initDrmMode`) picks index 0 — the FIRST
preferred mode — while the claim's tie-break rule (last-seen preferred)
picks index 1.  The two selections differ, refuting "both ... select the
mode by the same tie-break rule". -/
theorem init_mode_select_ctrex :
    initModeIndex [prefA, prefB] = 0 ∧
    specModeChoice [prefA, prefB] (fun _ => false) = 1 ∧
    ¬ initModeIndex [prefA, prefB] = specModeChoice [prefA, prefB] (fun _ => false) := by
  refine ⟨rfl, rfl, by decide⟩

/-- C3 amended: the explicit entry points' scan (`setDrmMode(device,mode)`
and `setRefreshRate`, via `selectModeIndex`) follows the claimed tie-break
rule exactly — first exact match wins and stops the scan, else the
last-seen preferred index, else index 0 — for every mode list and search
predicate; the initial mode-set scan (`initDrmMode`, via `initModeIndex`)
instead stops at the FIRST mode flagged preferred (no exact-match notion
applies), else index 0. -/
theorem mode_tiebreak :
    (∀ (f : ModeInfo → Bool) (ms : List ModeInfo),
      selectModeIndex f ms = specModeChoice ms f) ∧
    (∀ ms : List ModeInfo,
      initModeIndex ms = (ms.findIdx? isPreferred).getD 0) := by
  constructor
  · intro f ms
    unfold selectModeIndex specModeChoice
    rw [selectGo_eq]
    rcases hrest : ms.findIdx? f with _ | k <;>
      rcases hlast : specLastPreferredIdx ms with _ | p <;> simp
  · intro ms
    unfold initModeIndex
    rw [initModeIndexGo_eq]
    rcases hrest : ms.findIdx? isPreferred with _ | k <;> simp

/-- C1 counterexample: with the slot holding the previous pair (id 5,
handle 7) and a non-equivalent mode requested, an allocation failure makes
the commit return failure having emitted only the allocation attempt — the
previous framebuffer is neither removed (`rmFB 5`) nor freed (`freeFB 7`)
on this exit path, refuting "release ... on every exit path including
allocation failure and registration failure". -/
theorem commit_release_ctrex :
    (setDrmModeOut envAllocFailFix slotFix modeB).1 = false ∧
    (setDrmModeOut envAllocFailFix slotFix modeB).2.2 = [Ev.allocFB 1280 720] ∧
    Ev.rmFB 5 ∉ (setDrmModeOut envAllocFailFix slotFix modeB).2.2 ∧
    Ev.freeFB 7 ∉ (setDrmModeOut envAllocFailFix slotFix modeB).2.2 := by decide

/-- C1 amended: in a non-no-op commit with a previous framebuffer pair
held, the pair is released — kernel framebuffer removed, then pixel buffer
freed — exactly on the commits whose allocation and registration both
succeed, and there only after the CRTC bind has been attempted (the
release events follow the `setCrtc` event), regardless of the bind's
outcome; on allocation failure or registration failure the commit returns
without releasing either member of the previous pair. -/
theorem commit_release_order (o : DrmOutput) (m : ModeInfo)
    (env1 env2 env3 : CommitEnv) (fid : Nat)
    (hId : o.fbId ≠ 0) (hH : o.fbHandle ≠ 0)
    (hNe : isSameDrmMode m o.mode = false)
    (h1a : env1.allocResult ≠ 0) (h1b : env1.addFBResult = some fid)
    (h2 : env2.allocResult = 0)
    (h3a : env3.allocResult ≠ 0) (h3b : env3.addFBResult = none) :
    (setDrmModeOut env1 o m).2.2 =
      [Ev.allocFB m.hdisplay m.vdisplay, Ev.addFB env1.allocResult,
       Ev.setCrtc (match o.crtc with | some c => c.crtc_id | none => 0) fid,
       Ev.rmFB o.fbId, Ev.freeFB o.fbHandle] ∧
    (setDrmModeOut env2 o m).2.2 = [Ev.allocFB m.hdisplay m.vdisplay] ∧
    (setDrmModeOut env3 o m).2.2 =
      [Ev.allocFB m.hdisplay m.vdisplay, Ev.addFB env3.allocResult] := by
  unfold setDrmModeOut
  rw [hNe]
  refine ⟨?_, ?_, ?_⟩
  · simp [h1a, h1b, hId, hH]
  · simp [h2]
  · simp [h3a, h3b]

/-- Witness for `commit_release_order`; `env1` has a FAILING CRTC bind, so
the success-path release happens even then. -/
theorem commit_release_order_witness :
    (setDrmModeOut envBindFailFix slotFix modeB).2.2 =
      [Ev.allocFB 1280 720, Ev.addFB 7, Ev.setCrtc 0 11, Ev.rmFB 5, Ev.freeFB 7] ∧
    (setDrmModeOut envAllocFailFix slotFix modeB).2.2 = [Ev.allocFB 1280 720] ∧
    (setDrmModeOut envRegFailFix slotFix modeB).2.2 =
      [Ev.allocFB 1280 720, Ev.addFB 7] := by
  have h := commit_release_order slotFix modeB envBindFailFix envAllocFailFix envRegFailFix 11
    (by decide) (by decide) (by decide) (by decide) (by decide) (by decide) (by decide)
    (by decide)
  exact h

/-- C5 counterexample: on a registration (`drmModeAddFB`) failure the
commit returns failure but does NOT release the just-allocated pixel
buffer (handle 7): no `freeFB 7` event is emitted; the handle stays
recorded in the slot's `fbHandle`.  This refutes "the just-allocated pixel
buffer is released back to the buffer allocator". -/
theorem commit_regfail_ctrex :
    (setDrmModeOut envRegFailFix slotNoFbFix modeB).1 = false ∧
    (setDrmModeOut envRegFailFix slotNoFbFix modeB).2.1.fbHandle = 7 ∧
    Ev.freeFB 7 ∉ (setDrmModeOut envRegFailFix slotNoFbFix modeB).2.2 := by decide

/-- C5 amended: when registration of the newly allocated buffer fails, the
commit returns failure without releasing the buffer during the operation;
instead the handle is retained in the slot's `fbHandle` (with
`fbId == 0`), so no allocation is lost from the slot's bookkeeping and the
next `resetOutput` of the slot does free it. -/
theorem commit_regfail_retained (env : CommitEnv) (o : DrmOutput) (m : ModeInfo)
    (hNe : isSameDrmMode m o.mode = false)
    (hA : env.allocResult ≠ 0) (hR : env.addFBResult = none) :
    (setDrmModeOut env o m).1 = false ∧
    (setDrmModeOut env o m).2.1.fbHandle = env.allocResult ∧
    (setDrmModeOut env o m).2.1.fbId = 0 ∧
    Ev.freeFB env.allocResult ∉ (setDrmModeOut env o m).2.2 ∧
    Ev.freeFB env.allocResult ∈ resetOutputEvs (setDrmModeOut env o m).2.1 := by
  unfold setDrmModeOut resetOutputEvs
  rw [hNe]
  simp [hA, hR]

/-- Witness for `commit_regfail_retained` at the concrete fixture. -/
theorem commit_regfail_retained_witness :
    (setDrmModeOut envRegFailFix slotFix modeB).1 = false ∧
    (setDrmModeOut envRegFailFix slotFix modeB).2.1.fbHandle = 7 ∧
    (setDrmModeOut envRegFailFix slotFix modeB).2.1.fbId = 0 ∧
    Ev.freeFB 7 ∉ (setDrmModeOut envRegFailFix slotFix modeB).2.2 ∧
    Ev.freeFB 7 ∈ resetOutputEvs (setDrmModeOut envRegFailFix slotFix modeB).2.1 :=
  commit_regfail_retained envRegFailFix slotFix modeB (by decide) (by decide) (by decide)

/-- The commit never touches the slot's `connected` flag or connector
descriptor. -/
theorem setDrmModeOut_connector (env : CommitEnv) (o : DrmOutput) (m : ModeInfo) :
    (setDrmModeOut env o m).2.1.connector = o.connector ∧
    (setDrmModeOut env o m).2.1.connected = o.connected := by
  unfold setDrmModeOut
  by_cases hs : isSameDrmMode m o.mode
  · simp [hs]
  · rcases henv : env.addFBResult with _ | fid <;>
      by_cases ha : env.allocResult = 0 <;>
      by_cases hc : env.setCrtcOk <;>
      simp [hs, ha, henv, hc]

/-- The commit preserves the slot invariants, provided registration never
reports the reserved framebuffer id 0 and never fails after a successful
allocation. -/
theorem setDrmModeOut_inv (env : CommitEnv) (o : DrmOutput) (m : ModeInfo)
    (hWF0 : env.addFBResult ≠ some 0)
    (hWF : env.allocResult ≠ 0 → env.addFBResult ≠ none)
    (h : outputInv o) : outputInv (setDrmModeOut env o m).2.1 := by
  unfold setDrmModeOut
  by_cases hs : isSameDrmMode m o.mode
  · simpa [hs] using h
  · by_cases ha : env.allocResult = 0
    · simp only [hs, if_false, ha, if_true]
      exact ⟨h.1, by simp⟩
    · rcases henv : env.addFBResult with _ | fid
      · exact absurd henv (hWF ha)
      · have hfid : fid ≠ 0 := by
          intro hc; rw [hc] at henv; exact hWF0 henv
        by_cases hc : env.setCrtcOk <;>
          simp only [hs, if_false, ha, henv, hc, if_true] <;>
          exact ⟨h.1, by simp [ha, hfid]⟩

/-- A commit that returns success leaves an invariant-satisfying slot
(registration id nonzero suffices: the success path pairs a nonzero id
with a nonzero handle, and the no-op path changes nothing). -/
theorem setDrmModeOut_true_inv (env : CommitEnv) (o : DrmOutput) (m : ModeInfo)
    (hWF0 : env.addFBResult ≠ some 0)
    (h : outputInv o)
    (ht : (setDrmModeOut env o m).1 = true) :
    outputInv (setDrmModeOut env o m).2.1 := by
  unfold setDrmModeOut at ht ⊢
  by_cases hs : isSameDrmMode m o.mode
  · simpa [hs] using h
  · by_cases ha : env.allocResult = 0
    · simp [hs, ha] at ht
    · rcases henv : env.addFBResult with _ | fid
      · simp [hs, ha, henv] at ht
      · have hfid : fid ≠ 0 := by
          intro hc; rw [hc] at henv; exact hWF0 henv
        by_cases hc : env.setCrtcOk <;>
          simp only [hs, if_false, ha, henv, hc, if_true] <;>
          exact ⟨h.1, by simp [ha, hfid]⟩

/-- Lemma: `initDrmMode` preserves a true-returning slot's invariants (the success
came from the commit or was impossible). -/
theorem initDrmModeOut_true_inv (env : CommitEnv) (o : DrmOutput)
    (hWF0 : env.addFBResult ≠ some 0) (h : outputInv o)
    (ht : (initDrmModeOut env o).1 = true) : outputInv (initDrmModeOut env o).2.1 := by
  unfold initDrmModeOut at ht ⊢
  rcases hc : o.connector with _ | conn
  · simp [hc] at ht
  · by_cases hm : conn.modes.length = 0
    · simp [hc, hm] at ht
    · simp only [hc, hm, if_false] at ht ⊢
      exact setDrmModeOut_true_inv _ _ _ hWF0 h ht

/-- A true-returning connected branch leaves an invariant-satisfying slot. -/
theorem connectedBranchOut_true_inv (k : KernelEnv) (cfg : DrmConfig) (env : CommitEnv)
    (device : Int) (res : Resources) (o : DrmOutput) (i : Nat) (conn : Connector)
    (hWF0 : env.addFBResult ≠ some 0)
    (hpair : o.fbId ≠ 0 ↔ o.fbHandle ≠ 0)
    (ht : (connectedBranchOut k cfg env device res o i conn).1 = true) :
    outputInv (connectedBranchOut k cfg env device res o i conn).2 := by
  unfold connectedBranchOut at ht ⊢
  rcases he : resolveEncoder k (cfg.drmEncoderType device) res.encoders i conn with _ | e
  · simp [he] at ht
  · rcases hcr : resolveCrtc k res.crtcs e with _ | c
    · simp [he, hcr] at ht
    · by_cases hv : c.mode_valid
      · simp only [he, hcr, hv, if_true]
        exact ⟨fun _ => by simp, hpair⟩
      · simp only [he, hcr, hv, if_false] at ht ⊢
        exact initDrmModeOut_true_inv env _ hWF0 ⟨fun _ => by simp, hpair⟩ ht

/-- A true-returning connector loop leaves an invariant-satisfying slot. -/
theorem detectConnLoopOut_true_inv (k : KernelEnv) (cfg : DrmConfig) (env : CommitEnv)
    (device : Int) (res : Resources) (hWF0 : env.addFBResult ≠ some 0)
    (pairs : List (Nat × Nat)) :
    ∀ o : DrmOutput, outputInv o →
      (detectConnLoopOut k cfg env device res o pairs).1 = true →
      outputInv (detectConnLoopOut k cfg env device res o pairs).2 := by
  induction pairs with
  | nil => intro o ho ht; simp [detectConnLoopOut] at ht
  | cons p rest ih =>
    intro o ho ht
    obtain ⟨i, cid⟩ := p
    by_cases h0 : cid = 0
    · simp only [detectConnLoopOut, h0, if_true] at ht ⊢
      exact ih o ho ht
    · rcases hg : k.getConnector cid with _ | conn
      · simp only [detectConnLoopOut, h0, if_false, hg] at ht ⊢
        exact ih o ho ht
      · by_cases hty : conn.connector_type ≠ cfg.drmConnectorType device
        · simp [detectConnLoopOut, h0, hg, hty] at ht ⊢
          exact ih o ho ht
        · by_cases hcc : conn.connection ≠ DRM_MODE_CONNECTED
          · simp [detectConnLoopOut, h0, hg, hty, hcc] at ht ⊢
            exact ho
          · simp [detectConnLoopOut, h0, hg, hty, hcc] at ht ⊢
            exact connectedBranchOut_true_inv k cfg env device res o i conn hWF0 ho.2 ht

/-- Lemma: `detect` preserves the state invariants (its failure paths reset the
slot; its success paths install a loop result shown invariant). -/
theorem detect_stateInv (k : KernelEnv) (cfg : DrmConfig) (env : CommitEnv)
    (s : DrmState) (device : Int) (hWF0 : env.addFBResult ≠ some 0)
    (hs : stateInv s) : stateInv (detect k cfg env s device).2 := by
  unfold detect
  by_cases hi : s.initialized = false
  · simpa [hi] using hs
  · by_cases hd : getOutputIndex device < 0
    · simpa [hi, hd] using hs
    · rcases hr : k.resources with _ | res
      · simp [hi, hd, hr]
        exact stateInv_setOut _ hs outputInv_zeroOutput
      · have hX : resetOutput ((resetOutput s (getOutputIndex device).toNat).setOut
            (getOutputIndex device).toNat
            (detectConnLoopOut k cfg env device res zeroOutput (connPairs res)).2)
            (getOutputIndex device).toNat =
            s.setOut (getOutputIndex device).toNat zeroOutput := by
          unfold resetOutput
          rw [setOut_setOut, setOut_setOut]
        rcases hb : (detectConnLoopOut k cfg env device res zeroOutput (connPairs res)).1
        · simp [hi, hd, hr, hb, hX]
          split <;> exact stateInv_setOut _ hs outputInv_zeroOutput
        · simp [hi, hd, hr, hb]
          exact stateInv_setOut _ (stateInv_setOut _ hs outputInv_zeroOutput)
            (detectConnLoopOut_true_inv k cfg env device res hWF0 (connPairs res)
              zeroOutput outputInv_zeroOutput hb)

/-- Lemma: `initialize` preserves the state invariants. -/
theorem initDrm_stateInv (r : Int) (s : DrmState) (hs : stateInv s) :
    stateInv (initDrm r s).2 := by
  unfold initDrm
  by_cases hi : s.initialized
  · simpa [hi] using hs
  · by_cases hr : r < 0 <;> simp only [hi, hr, if_true, if_false, Bool.false_eq_true]
    · exact hs
    · exact ⟨outputInv_zeroOutput, outputInv_zeroOutput⟩

/-- Lemma: `deinitialize` preserves the state invariants. -/
theorem deinitDrm_stateInv (s : DrmState) : stateInv (deinitDrm s).1 := by
  unfold deinitDrm
  split <;> exact ⟨outputInv_zeroOutput, outputInv_zeroOutput⟩

/-- Lemma: `setDrmMode(device, mode)` preserves the state invariants under the
commit environment conditions. -/
theorem setDrmModeDevice_stateInv (env : CommitEnv) (s : DrmState) (device : Int)
    (v : ModeInfo) (hWF0 : env.addFBResult ≠ some 0)
    (hWF : env.allocResult ≠ 0 → env.addFBResult ≠ none)
    (hs : stateInv s) : stateInv (setDrmModeDevice env s device v).2.1 := by
  unfold setDrmModeDevice
  by_cases h1 : s.initialized = false
  · simpa [h1] using hs
  · by_cases h2 : device ≠ DEVICE_EXTERNAL
    · simpa [h1, h2] using hs
    · by_cases h3 : getOutputIndex device < 0
      · simpa [h1, h2, h3] using hs
      · simp only [h1, h2, h3, if_false]
        by_cases h4 : (s.out (getOutputIndex device).toNat).connected = false
        · simpa [h4] using hs
        · rcases h5 : (s.out (getOutputIndex device).toNat).connector with _ | conn
          · simpa [h4, h5] using hs
          · by_cases h6 : conn.modes.length = 0
            · simpa [h4, h5, h6] using hs
            · simp only [h4, h5, h6, if_false, Bool.false_eq_true]
              unfold setDrmModeIndex
              exact stateInv_setOut _ hs
                (setDrmModeOut_inv env _ _ hWF0 hWF (stateInv_out _ hs))

/-- Lemma: `setRefreshRate` preserves the state invariants under the commit
environment conditions. -/
theorem setRefreshRate_stateInv (env : CommitEnv) (s : DrmState) (device : Int)
    (hz : Nat) (hWF0 : env.addFBResult ≠ some 0)
    (hWF : env.allocResult ≠ 0 → env.addFBResult ≠ none)
    (hs : stateInv s) : stateInv (setRefreshRate env s device hz).2.1 := by
  unfold setRefreshRate
  by_cases h1 : s.initialized = false
  · simpa [h1] using hs
  · by_cases h2 : device ≠ DEVICE_EXTERNAL
    · simpa [h1, h2] using hs
    · by_cases h3 : getOutputIndex device < 0
      · simpa [h1, h2, h3] using hs
      · simp only [h1, h2, h3, if_false]
        by_cases h4 : (s.out (getOutputIndex device).toNat).connected = false
        · simpa [h4] using hs
        · rcases h5 : (s.out (getOutputIndex device).toNat).connector with _ | conn
          · simpa [h4, h5] using hs
          · by_cases h6 : conn.modes.length = 0
            · simpa [h4, h5, h6] using hs
            · simp only [h4, h5, h6, if_false, Bool.false_eq_true]
              unfold setDrmModeIndex
              exact stateInv_setOut _ hs
                (setDrmModeOut_inv env _ _ hWF0 hWF (stateInv_out _ hs))

/-- C2 counterexample, on a reachable state: from the constructor state,
`initialize` succeeds, `detect(EXTERNAL)` succeeds adopting the kernel's
programmed mode (slot connected, invariants hold), and then a
`setDrmMode(EXTERNAL, modeB)` whose framebuffer registration fails returns
failure leaving `fbHandle = 7` with `fbId = 0` — the pairing invariant
`fbId ≠ 0 ↔ fbHandle ≠ 0` is violated, refuting preservation "including
states reached through failed calls". -/
theorem inv_violation_ctrex :
    (initDrm 3 freshDrm).1 = true ∧
    (detect kFix cfgFix envOkFix sInit 1).1 = true ∧
    stateInv sConn ∧
    (setDrmModeDevice envRegFailFix sConn 1 modeB).1 = false ∧
    (setDrmModeDevice envRegFailFix sConn 1 modeB).2.1.external.fbHandle = 7 ∧
    (setDrmModeDevice envRegFailFix sConn 1 modeB).2.1.external.fbId = 0 ∧
    ¬ stateInv (setDrmModeDevice envRegFailFix sConn 1 modeB).2.1 := by decide

/-- C2 amended: every public operation preserves the Output State
invariants, under commit-environment conditions: for `detect` it suffices
that a successful registration never reports framebuffer id 0; for the two
explicit mode entry points additionally that registration does not fail
after a successful allocation (a registration failure after successful
allocation leaves `fbHandle ≠ 0` with `fbId = 0`, breaking the pairing
invariant — see the counterexample); `initialize` and `deinitialize`
preserve the invariants unconditionally. -/
theorem ops_preserve_inv (r : Int) (k : KernelEnv) (cfg : DrmConfig)
    (envd enva envb : CommitEnv) (s1 s2 s3 s4 s5 : DrmState)
    (d dv dw : Int) (v : ModeInfo) (hz : Nat)
    (hWFd : envd.addFBResult ≠ some 0)
    (hWFa0 : enva.addFBResult ≠ some 0)
    (hWFa : enva.allocResult ≠ 0 → enva.addFBResult ≠ none)
    (hWFb0 : envb.addFBResult ≠ some 0)
    (hWFb : envb.allocResult ≠ 0 → envb.addFBResult ≠ none)
    (h1 : stateInv s1) (h3 : stateInv s3) (h4 : stateInv s4) (h5 : stateInv s5) :
    stateInv (initDrm r s1).2 ∧
    stateInv (deinitDrm s2).1 ∧
    stateInv (detect k cfg envd s3 d).2 ∧
    stateInv (setDrmModeDevice enva s4 dv v).2.1 ∧
    stateInv (setRefreshRate envb s5 dw hz).2.1 :=
  ⟨initDrm_stateInv r s1 h1,
   deinitDrm_stateInv s2,
   detect_stateInv k cfg envd s3 d hWFd h3,
   setDrmModeDevice_stateInv enva s4 dv v hWFa0 hWFa h4,
   setRefreshRate_stateInv envb s5 dw hz hWFb0 hWFb h5⟩

/-- Witness for `ops_preserve_inv` at concrete states/environments. -/
theorem ops_preserve_inv_witness :
    stateInv (initDrm 3 freshDrm).2 ∧
    stateInv (deinitDrm sConn).1 ∧
    stateInv (detect kFix cfgFix envOkFix sInit 1).2 ∧
    stateInv (setDrmModeDevice envOkFix sConn 1 modeB).2.1 ∧
    stateInv (setRefreshRate envOkFix sConn 1 30).2.1 :=
  ops_preserve_inv 3 kFix cfgFix envOkFix envOkFix envOkFix
    freshDrm sConn sInit sConn sConn 1 1 1 modeB 30
    (by decide) (by decide) (fun _ => by decide) (by decide) (fun _ => by decide)
    (by decide) (by decide) (by decide) (by decide)

/-- The connector loop equals a case split on `findMatch` (first relevant
connector): no match — exhausted loop, `ret == false`, slot untouched; a
match that is not connected — `ret == true`, slot untouched; a connected
match — the connected branch. -/
theorem detectConnLoopOut_eq (k : KernelEnv) (cfg : DrmConfig) (env : CommitEnv)
    (device : Int) (res : Resources) (o : DrmOutput) (pairs : List (Nat × Nat)) :
    detectConnLoopOut k cfg env device res o pairs =
      match findMatch k (cfg.drmConnectorType device) pairs with
      | none => (false, o)
      | some (i, conn) =>
        if conn.connection ≠ DRM_MODE_CONNECTED then (true, o)
        else connectedBranchOut k cfg env device res o i conn := by
  induction pairs with
  | nil => simp [detectConnLoopOut, findMatch]
  | cons p rest ih =>
    obtain ⟨i, cid⟩ := p
    by_cases h0 : cid = 0
    · simp [detectConnLoopOut, findMatch, h0, ih]
    · rcases hg : k.getConnector cid with _ | conn
      · simp [detectConnLoopOut, findMatch, h0, hg, ih]
      · by_cases hty : conn.connector_type ≠ cfg.drmConnectorType device
        · simp [detectConnLoopOut, findMatch, h0, hg, hty, ih]
        · simp [detectConnLoopOut, findMatch, h0, hg, hty]

/-- C6 counterexample: `detect(PRIMARY)` whose matching connector exists
but is NOT connected returns SUCCESS (the claim predicts failure for the
PRIMARY slot); and `detect(EXTERNAL)` whose matching connector is
connected but whose encoder cannot be resolved returns FAILURE (the claim
predicts success for the EXTERNAL slot). -/
theorem detect_policy_ctrex :
    (detect kDiscFix cfgFix envOkFix sInit 0).1 = true ∧
    (detect kNoEncFix cfgFix envOkFix sInit 1).1 = false := by decide

/-- C6 amended: the actual escalation policy of `detect` is:
(a) when NO connector of the expected type resolves at all, the PRIMARY
slot fails and the EXTERNAL slot succeeds (the claimed asymmetry holds in
exactly this case);
(b) when the matching connector exists but is not connected, detect
succeeds for BOTH slots, leaving the slot reset (not connected), and in
particular `detect(EXTERNAL)` on a disconnected connector succeeds with
`isConnected(EXTERNAL) == false` and `getMode(EXTERNAL)` failing;
(c) when the matching connector is connected but no encoder — or an
encoder but no CRTC — can be resolved, detect fails for BOTH slots. -/
theorem detect_policy
    (kA : KernelEnv) (cfgA : DrmConfig) (envA : CommitEnv) (sA : DrmState) (resA : Resources)
    (hA1 : sA.initialized = true) (hA2 : kA.resources = some resA)
    (hA3 : findMatch kA (cfgA.drmConnectorType DEVICE_PRIMARY) (connPairs resA) = none)
    (hA4 : findMatch kA (cfgA.drmConnectorType DEVICE_EXTERNAL) (connPairs resA) = none)
    (kB : KernelEnv) (cfgB : DrmConfig) (envB : CommitEnv) (sB : DrmState) (resB : Resources)
    (dB : Int) (iB : Nat) (connB : Connector)
    (hB0 : dB = DEVICE_PRIMARY ∨ dB = DEVICE_EXTERNAL)
    (hB1 : sB.initialized = true) (hB2 : kB.resources = some resB)
    (hB3 : findMatch kB (cfgB.drmConnectorType dB) (connPairs resB) = some (iB, connB))
    (hB4 : connB.connection ≠ DRM_MODE_CONNECTED)
    (kC : KernelEnv) (cfgC : DrmConfig) (envC : CommitEnv) (sC : DrmState) (resC : Resources)
    (dC : Int) (iC : Nat) (connC : Connector)
    (hC0 : dC = DEVICE_PRIMARY ∨ dC = DEVICE_EXTERNAL)
    (hC1 : sC.initialized = true) (hC2 : kC.resources = some resC)
    (hC3 : findMatch kC (cfgC.drmConnectorType dC) (connPairs resC) = some (iC, connC))
    (hC4 : connC.connection = DRM_MODE_CONNECTED)
    (hC5 : resolveEncoder kC (cfgC.drmEncoderType dC) resC.encoders iC connC = none ∨
      ∃ e : Encoder,
        resolveEncoder kC (cfgC.drmEncoderType dC) resC.encoders iC connC = some e ∧
        resolveCrtc kC resC.crtcs e = none) :
    (detect kA cfgA envA sA DEVICE_PRIMARY).1 = false ∧
    (detect kA cfgA envA sA DEVICE_EXTERNAL).1 = true ∧
    (detect kB cfgB envB sB dB).1 = true ∧
    (detect kB cfgB envB sB dB).2.out (getOutputIndex dB).toNat = zeroOutput ∧
    (dB = DEVICE_EXTERNAL →
      isConnected (detect kB cfgB envB sB dB).2 DEVICE_EXTERNAL = false ∧
      getModeInfo (detect kB cfgB envB sB dB).2 DEVICE_EXTERNAL = none) ∧
    (detect kC cfgC envC sC dC).1 = false := by
  have n0 : ¬ (getOutputIndex DEVICE_PRIMARY < 0) := by decide
  have n1 : ¬ (getOutputIndex DEVICE_EXTERNAL < 0) := by decide
  have e0 : getOutputIndex DEVICE_PRIMARY = 0 := by decide
  have e1 : getOutputIndex DEVICE_EXTERNAL = 1 := by decide
  refine ⟨?_, ?_, ?_, ?_, ?_, ?_⟩
  · unfold detect
    simp [hA1, n0, e0, hA2, detectConnLoopOut_eq, hA3, zeroOutput, OUTPUT_PRIMARY,
      Int.toNat_zero, Int.toNat_one]
  · unfold detect
    simp [hA1, n1, e1, hA2, detectConnLoopOut_eq, hA4, zeroOutput, OUTPUT_PRIMARY,
      Int.toNat_zero, Int.toNat_one]
  · rcases hB0 with h | h <;> subst h <;> unfold detect <;>
      simp [hB1, n0, n1, hB2, detectConnLoopOut_eq, hB3, hB4]
  · rcases hB0 with h | h <;> subst h <;> unfold detect <;>
      simp [hB1, n0, n1, hB2, detectConnLoopOut_eq, hB3, hB4, resetOutput, out_setOut_self]
  · rcases hB0 with h | h
    · subst h; intro hcontra; exact absurd hcontra (by decide)
    · subst h
      intro _
      unfold detect isConnected getModeInfo
      simp [hB1, n1, hB2, detectConnLoopOut_eq, hB3, hB4, resetOutput, out_setOut_self,
        zeroOutput, zeroMode]
  · rcases hC5 with he | ⟨e, he, hcr⟩
    · rcases hC0 with h | h <;> subst h <;> unfold detect <;>
        simp [hC1, n0, n1, hC2, detectConnLoopOut_eq, hC3, hC4, connectedBranchOut, he]
    · rcases hC0 with h | h <;> subst h <;> unfold detect <;>
        simp [hC1, n0, n1, hC2, detectConnLoopOut_eq, hC3, hC4, connectedBranchOut, he, hcr]

/-- Witness for `detect_policy` at concrete kernels: no matching connector
(`kAbsentFix`), a disconnected matching connector (`kDiscFix`, EXTERNAL
device), and a connected connector with unresolvable encoder
(`kNoEncFix`). -/
theorem detect_policy_witness :
    (detect kAbsentFix cfgFix envOkFix sInit DEVICE_PRIMARY).1 = false ∧
    (detect kAbsentFix cfgFix envOkFix sInit DEVICE_EXTERNAL).1 = true ∧
    (detect kDiscFix cfgFix envOkFix sInit 1).1 = true ∧
    (detect kDiscFix cfgFix envOkFix sInit 1).2.out (getOutputIndex 1).toNat = zeroOutput ∧
    ((1 : Int) = DEVICE_EXTERNAL →
      isConnected (detect kDiscFix cfgFix envOkFix sInit 1).2 DEVICE_EXTERNAL = false ∧
      getModeInfo (detect kDiscFix cfgFix envOkFix sInit 1).2 DEVICE_EXTERNAL = none) ∧
    (detect kNoEncFix cfgFix envOkFix sInit 1).1 = false :=
  detect_policy kAbsentFix cfgFix envOkFix sInit ⟨some [1], some [], some []⟩
    (by decide) rfl (by decide) (by decide)
    kDiscFix cfgFix envOkFix sInit ⟨some [1], some [], some []⟩ 1 0 connDiscFix
    (Or.inr (by decide)) (by decide) rfl (by decide) (by decide)
    kNoEncFix cfgFix envOkFix sInit ⟨some [1], some [], some []⟩ 1 0 connNoEncFix
    (Or.inr (by decide)) (by decide) rfl (by decide) (by decide)
    (Or.inl (by decide))

/-- Witness for `accessors_fresh_fail` at an invalid device id. -/
theorem accessors_fresh_fail_witness :
    getModeInfo freshDrm 99 = none ∧
    getPhysicalSize freshDrm 99 = none ∧
    isConnected freshDrm 99 = false :=
  accessors_fresh_fail 99

end DrmModel

